import Mathlib

/-!
Shallow embedding of the `zxic-ping` watchdog (src/src/main.rs).

The program is a single-threaded watchdog loop: a non-blocking UDP control
channel mapped to a one-slot command cell, a CPU-usage hysteresis machine,
a latency hysteresis machine and a consecutive-failure reboot counter.
Machine integers (`u64`, `i64`, `u8`) are modelled as `Nat`/`Int` with
explicit reduction modulo `2 ^ 64` where the Rust code can wrap; the `f32`
arithmetic of `calculate_cpu_usage` is modelled by exact rationals.
-/

namespace Zxic

/-- The four-variant command enum `ServerCmd` (main.rs lines 70-77),
with `repr(u8)` discriminants 0..3. -/
inductive ServerCmd where
  | None
  | RestartADB
  | KillADB
  | RestartSERVER
deriving DecidableEq, Repr

/-- The `repr(u8)` value written by `ServerCmd::store` (main.rs line 80-82):
the enum discriminant as a byte. -/
def ServerCmd.toByte : ServerCmd → Nat
  | .None => 0
  | .RestartADB => 1
  | .KillADB => 2
  | .RestartSERVER => 3

/-- `ServerCmd::load` (main.rs lines 83-90): decode the byte held in the
atomic cell; 1, 2, 3 map to the commands, any other byte to `None`. -/
def ServerCmd.load (b : Nat) : ServerCmd :=
  if b = 1 then .RestartADB
  else if b = 2 then .KillADB
  else if b = 3 then .RestartSERVER
  else .None

/-- Remediation actions dispatched by the scheduler tick on a pending
command (main.rs lines 195-225). -/
inductive HostAction where
  | restartDebugBridge
  | killDebugBridge
  | rebootHost
deriving DecidableEq, Repr

/-- Datagram handling of the non-blocking control listener
(main.rs lines 160-187): a payload equal to one of the four fixed ASCII
commands overwrites the pending command (PING stores nothing) and is
acknowledged with the 2-byte reply "OK" to the sender; any other payload
changes nothing and gets no reply. Returns the new pending command and
the optional reply payload. -/
def handleDatagram (pending : ServerCmd) (received : String) :
    ServerCmd × Option String :=
  if received = "RESTART_ADBD" then (.RestartADB, some "OK")
  else if received = "KILL_ADBD" then (.KillADB, some "OK")
  else if received = "RESTART_SERVER" then (.RestartSERVER, some "OK")
  else if received = "PING" then (pending, some "OK")
  else (pending, none)

/-- Command dispatch at the top of each scheduler tick
(main.rs lines 195-225): a pending command is reset to `None` and its
remediation action is invoked; `None` does nothing. -/
def dispatchTick : ServerCmd → ServerCmd × Option HostAction
  | .RestartADB => (.None, some .restartDebugBridge)
  | .KillADB => (.None, some .killDebugBridge)
  | .RestartSERVER => (.None, some .rebootHost)
  | .None => (.None, none)

/-- One step of the latency hysteresis machine (main.rs lines 286-303),
fed the connect latency in milliseconds of a successful probe.
Returns the new `high_latency_count` and whether the throttle and the
restore capabilities are invoked on this sample. -/
def latencyStep (streak : Nat) (latMs : Nat) : Nat × Bool × Bool :=
  if 50 < latMs then
    (streak + 1, streak + 1 == 3, false)
  else
    (0, false, streak == 3)

/-- Fold `latencyStep` over a list of successful-probe latencies,
counting throttle and restore invocations.
Returns (final streak, throttle count, restore count). -/
def latencyRun (streak : Nat) (lats : List Nat) : Nat × Nat × Nat :=
  match lats with
  | [] => (streak, 0, 0)
  | l :: ls =>
    let s := latencyStep streak l
    let r := latencyRun s.1 ls
    (r.1, r.2.1 + (if s.2.1 then 1 else 0), r.2.2 + (if s.2.2 then 1 else 0))

/-- One step of the consecutive-failure counter (main.rs lines 304-322),
fed the success flag of a connectivity check. Returns the new
`failure_count` and whether the reboot capability is invoked. -/
def failureStep (count : Nat) (success : Bool) : Nat × Bool :=
  if success then (0, false)
  else (count + 1, decide (10 ≤ count + 1))

/-- Fold `failureStep` over a list of probe outcomes, counting reboot
invocations. Returns (final count, reboot count). -/
def failureRun (count : Nat) (results : List Bool) : Nat × Nat :=
  match results with
  | [] => (count, 0)
  | b :: bs =>
    let s := failureStep count b
    let r := failureRun s.1 bs
    (r.1, r.2 + (if s.2 then 1 else 0))

/-- Observable outputs of one step of the load hysteresis machine:
the three notification kinds and the three capability invocations. -/
structure LoadOut where
  enterNotif : Bool
  stillNotif : Bool
  exitNotif : Bool
  throttle : Bool
  restore : Bool
  clearCache : Bool
deriving DecidableEq, Repr

/-- One step of the CPU-load hysteresis machine (main.rs lines 234-275),
on state (`high_load_count`, `back_to_normal_load_count`), fed the latest
usage percentage (modelled as an exact rational; the code compares `f32`
against the 85.0 threshold). -/
def loadStep (st : Nat × Nat) (usage : ℚ) : (Nat × Nat) × LoadOut :=
  if 85 < usage then
    if st.1 = 0 then
      ((1, 0), ⟨true, false, false, false, false, false⟩)
    else
      ((st.1 + 1, 0), ⟨false, true, false, st.1 + 1 == 3, false, false⟩)
  else
    if 0 < st.1 then
      if 3 ≤ st.2 + 1 then
        ((0, 0), ⟨false, false, true, false, true, true⟩)
      else
        ((st.1, st.2 + 1), ⟨false, false, true, false, false, false⟩)
    else
      (st, ⟨false, false, false, false, false, false⟩)

/-- Fold `loadStep` over a list of usage samples, counting throttle,
restore and clear-page-cache invocations.
Returns (final state, throttles, restores, cache clears). -/
def loadRun (st : Nat × Nat) (usages : List ℚ) :
    (Nat × Nat) × Nat × Nat × Nat :=
  match usages with
  | [] => (st, 0, 0, 0)
  | u :: us =>
    let s := loadStep st u
    let r := loadRun s.1 us
    (r.1, r.2.1 + (if s.2.throttle then 1 else 0),
          r.2.2.1 + (if s.2.restore then 1 else 0),
          r.2.2.2 + (if s.2.clearCache then 1 else 0))

/-- The ten cumulative `u64` CPU counters of `struct CpuStats`
(main.rs lines 41-53), as read from the first aggregate line of
/proc/stat. -/
structure CpuStats where
  user : Nat
  nice : Nat
  system : Nat
  idle : Nat
  iowait : Nat
  irq : Nat
  softirq : Nat
  steal : Nat
  guest : Nat
  guest_nice : Nat
deriving DecidableEq, Repr

/-- The plain (unwrapped) sum of all ten counters; equals
`CpuStats.total` whenever it is below `2 ^ 64`. -/
def CpuStats.sumAll (s : CpuStats) : Nat :=
  s.user + s.nice + s.system + s.idle + s.iowait +
  s.irq + s.softirq + s.steal + s.guest + s.guest_nice

/-- `CpuStats::total` (main.rs lines 56-59): the `u64` sum of all ten
counters, wrapping modulo `2 ^ 64` as Rust release-mode addition does. -/
def CpuStats.total (s : CpuStats) : Nat :=
  s.sumAll % 2 ^ 64

/-- `CpuStats::idle_total` (main.rs lines 61-63): `idle + iowait` as a
wrapping `u64` sum. -/
def CpuStats.idle_total (s : CpuStats) : Nat :=
  (s.idle + s.iowait) % 2 ^ 64

/-- `CpuStats::active_total` (main.rs lines 65-67): the wrapping `u64`
difference `total - idle_total`. -/
def CpuStats.active_total (s : CpuStats) : Nat :=
  (s.total + 2 ^ 64 - s.idle_total) % 2 ^ 64

/-- Rust `x as i64` on a `u64` value: reinterpret the 64-bit pattern as a
signed integer. -/
def asI64 (x : Nat) : Int :=
  if x % 2 ^ 64 < 2 ^ 63 then (x % 2 ^ 64 : Nat)
  else (x % 2 ^ 64 : Nat) - 2 ^ 64

/-- Wrapping `i64` subtraction, as Rust release mode computes
`a - b` on `i64`. -/
def i64Sub (a b : Int) : Int :=
  (a - b + 2 ^ 63) % 2 ^ 64 - 2 ^ 63

/-- `calculate_cpu_usage` (main.rs lines 386-402): deltas of
`active_total` and `total` taken after `as i64` casts; if the total delta
is positive the usage is `active_delta / total_delta * 100`, otherwise 0.
The `f32` division and product are modelled by exact rationals. -/
def calculate_cpu_usage (prev current : CpuStats) : ℚ :=
  let active_delta := i64Sub (asI64 current.active_total) (asI64 prev.active_total)
  let total_delta := i64Sub (asI64 current.total) (asI64 prev.total)
  if 0 < total_delta then
    (active_delta : ℚ) / (total_delta : ℚ) * 100
  else
    0

/-- The spec formula's total: the mathematical sum of all ten counters,
as an integer. -/
def mathTotal (s : CpuStats) : Int := s.sumAll

/-- The spec formula's active value: total minus (idle + iowait). -/
def mathActive (s : CpuStats) : Int := mathTotal s - (s.idle + s.iowait)

/-! ### Parsing /proc/stat -/

/-- ASCII whitespace test used to model Rust's `split_whitespace`. -/
def isWsChar (c : Char) : Bool :=
  c = ' ' || c = '\t' || c = '\r' || c = '\n'

/-- Helper of `splitWs`: accumulates the current word (reversed). -/
def splitWsAux : List Char → List Char → List (List Char)
  | [], acc => if acc.isEmpty then [] else [acc.reverse]
  | c :: cs, acc =>
    if isWsChar c then
      if acc.isEmpty then splitWsAux cs []
      else acc.reverse :: splitWsAux cs []
    else splitWsAux cs (c :: acc)

/-- Rust `str::split_whitespace`: the maximal non-whitespace words of the
line, in order, with no empty words. -/
def splitWs (l : List Char) : List (List Char) :=
  splitWsAux l []

/-- Split a character list at every occurrence of a separator; yields one
piece more than the number of separators. -/
def splitOnChar (sep : Char) : List Char → List (List Char)
  | [] => [[]]
  | c :: cs =>
    let r := splitOnChar sep cs
    if c = sep then [] :: r
    else match r with
      | [] => [[c]]
      | p :: ps => (c :: p) :: ps

/-- Drop one trailing carriage return, as Rust `str::lines` does on each
line. -/
def stripCr (l : List Char) : List Char :=
  match l.reverse with
  | '\r' :: rest => rest.reverse
  | _ => l

/-- Rust `str::lines`: split on newline, drop a final empty piece
produced by a trailing newline, and strip a trailing carriage return from
each line. -/
def rustLines (l : List Char) : List (List Char) :=
  let ps := splitOnChar '\n' l
  let ps := match ps.reverse with
    | [] :: rest => rest.reverse
    | _ => ps
  ps.map stripCr

/-- Decimal digit accumulation for `parseU64`; `none` on any non-digit. -/
def parseDigits : List Char → Nat → Option Nat
  | [], acc => some acc
  | c :: cs, acc =>
    if c.isDigit then parseDigits cs (acc * 10 + (c.toNat - 48))
    else none

/-- Rust `str::parse::<u64>`: an optional leading plus sign, then at
least one decimal digit, with the value fitting in 64 bits. -/
def parseU64 (l : List Char) : Option Nat :=
  let l' := match l with
    | '+' :: rest => rest
    | _ => l
  match l' with
  | [] => none
  | _ =>
    match parseDigits l' 0 with
    | some v => if v < 2 ^ 64 then some v else none
    | none => none

/-- Does the character list start with the given pattern? Models Rust
`str::starts_with`. -/
def startsWithChars : List Char → List Char → Bool
  | _, [] => true
  | [], _ :: _ => false
  | c :: cs, p :: ps => c = p && startsWithChars cs ps

/-- Field access of `get_cpu_stats`: `parts[i].parse().unwrap_or(0)`,
and also `parts.get(i).and_then(parse).unwrap_or(0)` for the optional
eleventh column (an absent index yields the empty word, which fails to
parse, hence 0 either way). -/
def fieldVal (parts : List (List Char)) (i : Nat) : Nat :=
  (parseU64 (parts.getD i [])).getD 0

/-- Line scan of `get_cpu_stats` (main.rs lines 363-381): the first line
starting with "cpu " and split into at least 10 whitespace-separated
parts (the label plus at least nine numeric fields) yields the snapshot;
otherwise the scan continues, and runs out into the error. -/
def findCpuLine : List (List Char) → Except String CpuStats
  | [] => .error "Cannot find CPU statistics in /proc/stat"
  | l :: ls =>
    if startsWithChars l ['c', 'p', 'u', ' '] then
      let parts := splitWs l
      if 10 ≤ parts.length then
        .ok ⟨fieldVal parts 1, fieldVal parts 2, fieldVal parts 3,
             fieldVal parts 4, fieldVal parts 5, fieldVal parts 6,
             fieldVal parts 7, fieldVal parts 8, fieldVal parts 9,
             fieldVal parts 10⟩
      else findCpuLine ls
    else findCpuLine ls

/-- `get_cpu_stats` (main.rs lines 358-384) applied to the text read
from /proc/stat (the read itself is an external effect; a read error is
the other error path, not modelled here). -/
def get_cpu_stats (content : String) : Except String CpuStats :=
  findCpuLine (rustLines content.data)

/-! ### Startup, target endpoint and the connectivity probe -/

/-- Does the argument start with a double dash, as tested by
`get_target_ip`? -/
def isFlagArg (a : String) : Bool :=
  startsWithChars a.data ['-', '-']

/-- `get_target_ip` (main.rs lines 587-603): the first non-flag
command-line argument after the program name, else the TARGET_IP
environment variable when set and non-empty, else the default
"127.0.0.1:80". The returned string is not validated. -/
def get_target_ip (args : List String) (envTargetIp : Option String) : String :=
  match (args.drop 1).find? (fun a => !isFlagArg a) with
  | some a => a
  | none =>
    match envTargetIp with
    | some e => if e ≠ "" then e else "127.0.0.1:80"
    | none => "127.0.0.1:80"

/-- A decimal value with no sign and at most the given bound, used for
the octets and port of a socket address. -/
def parseBoundedDec (l : List Char) (bound : Nat) : Option Nat :=
  match l with
  | [] => none
  | _ =>
    match parseDigits l 0 with
    | some v => if v ≤ bound then some v else none
    | none => none

/-- Model of the standard library socket-address parser invoked by
`target_ip.parse()` in `tcp_connect_check`: an IPv4 dotted quad, a colon
and a 16-bit port (the IPv6 forms are irrelevant to the claims: only
whether parsing succeeds matters). -/
def parseSocketAddr (s : String) : Option ((Nat × Nat × Nat × Nat) × Nat) :=
  match splitOnChar ':' s.data with
  | [ip, port] =>
    match splitOnChar '.' ip with
    | [a, b, c, d] =>
      match parseBoundedDec a 255, parseBoundedDec b 255,
            parseBoundedDec c 255, parseBoundedDec d 255,
            parseBoundedDec port 65535 with
      | some av, some bv, some cv, some dv, some pv =>
        some ((av, bv, cv, dv), pv)
      | _, _, _, _, _ => none
    | _ => none
  | _ => none

/-- `tcp_connect_check` (main.rs lines 617-638): the target string is
parsed on every call and unwrapped, so a malformed target panics —
modelled as `none`. On a well-formed target the outcome of the TCP
connect attempt (an external effect, passed in as `connects`) is
returned. -/
def tcp_connect_check (target : String) (connects : Bool) : Option Bool :=
  match parseSocketAddr target with
  | none => none
  | some _ => some connects

/-- The startup phase of `main` before the control loop
(main.rs lines 93-157): pick the target string, bind the control socket
(its failure — `expect` — is the only abort, modelled by `bindOk`), take
the initial CPU snapshot and apply the initial network profile. The
target string is returned as chosen; nothing parses or validates it
before the loop. -/
def startup (args : List String) (envTargetIp : Option String)
    (bindOk : Bool) : Option String :=
  if bindOk then some (get_target_ip args envTargetIp) else none

/-! ### Helper lemmas on the wrapped CPU arithmetic -/

/-- The idle counters are part of the full sum. -/
theorem idle_le_sumAll (s : CpuStats) : s.idle + s.iowait ≤ s.sumAll := by
  unfold CpuStats.sumAll
  omega

/-- Below `2 ^ 63` the wrapping total is the plain sum. -/
theorem total_eq_of_small (s : CpuStats) (h : s.sumAll < 2 ^ 63) :
    s.total = s.sumAll := by
  unfold CpuStats.total
  omega

/-- Below `2 ^ 63` the wrapping active total is the plain difference. -/
theorem active_eq_of_small (s : CpuStats) (h : s.sumAll < 2 ^ 63) :
    s.active_total = s.sumAll - (s.idle + s.iowait) := by
  have hi := idle_le_sumAll s
  unfold CpuStats.active_total CpuStats.total CpuStats.idle_total
  omega

/-- The `as i64` cast is the identity below `2 ^ 63`. -/
theorem asI64_small (x : Nat) (h : x < 2 ^ 63) : asI64 x = x := by
  unfold asI64
  rw [Nat.mod_eq_of_lt (by omega)]
  rw [if_pos h]

/-- Wrapping `i64` subtraction of two in-range unsigned values is exact. -/
theorem i64Sub_exact (a b : Nat) (ha : a < 2 ^ 63) (hb : b < 2 ^ 63) :
    i64Sub (a : Int) (b : Int) = (a : Int) - b := by
  unfold i64Sub
  omega

/-- On snapshots whose full sums fit in 63 bits (so that no `u64` or
`i64` wrap occurs) the computed usage is exactly the spec formula. -/
theorem usage_eq_of_small (prev current : CpuStats)
    (hp : prev.sumAll < 2 ^ 63) (hc : current.sumAll < 2 ^ 63) :
    calculate_cpu_usage prev current =
      if 0 < mathTotal current - mathTotal prev then
        100 * ((mathActive current - mathActive prev : ℤ) : ℚ) /
          ((mathTotal current - mathTotal prev : ℤ) : ℚ)
      else 0 := by
  have hip := idle_le_sumAll prev
  have hic := idle_le_sumAll current
  have ht : i64Sub (asI64 current.total) (asI64 prev.total)
      = mathTotal current - mathTotal prev := by
    rw [total_eq_of_small prev hp, total_eq_of_small current hc,
        asI64_small _ (by omega), asI64_small _ (by omega),
        i64Sub_exact _ _ (by omega) (by omega)]
    unfold mathTotal
    rfl
  have ha : i64Sub (asI64 current.active_total) (asI64 prev.active_total)
      = mathActive current - mathActive prev := by
    rw [active_eq_of_small prev hp, active_eq_of_small current hc,
        asI64_small _ (by omega), asI64_small _ (by omega),
        i64Sub_exact _ _ (by omega) (by omega)]
    unfold mathActive mathTotal
    omega
  simp only [calculate_cpu_usage, ht, ha]
  split_ifs with h
  · ring
  · rfl

/-! ### Claim theorems -/

/-- C1 is false on the code: a malformed target endpoint such as "###"
is not detected at startup — `startup` completes and hands the raw
string to the loop — and the probe `tcp_connect_check` then panics
(models the per-call `parse().unwrap()`), so the abort happens inside
the loop, not before it. -/
theorem C1_counterexample :
    parseSocketAddr "###" = none ∧
    startup ["zxping", "###"] none true = some "###" ∧
    tcp_connect_check "###" true = none := by
  decide

/-- C1 amended: the configured target endpoint is never validated at
startup — startup succeeds (given the control port binds) and returns
whatever `get_target_ip` chose — and a malformed endpoint instead
panics inside the loop on every connectivity probe, aborting the
process at the first probe. -/
theorem C1_target_parse_in_loop (args : List String)
    (envTargetIp : Option String) (target : String)
    (hmal : parseSocketAddr target = none) :
    startup args envTargetIp true = some (get_target_ip args envTargetIp) ∧
    ∀ connects, tcp_connect_check target connects = none := by
  constructor
  · rfl
  · intro connects
    unfold tcp_connect_check
    rw [hmal]

/-- Witness for C1 amended at the concrete malformed endpoint "###". -/
theorem C1_target_parse_in_loop_witness :
    startup ["zxping", "###"] none true =
      some (get_target_ip ["zxping", "###"] none) ∧
    ∀ connects, tcp_connect_check "###" connects = none :=
  C1_target_parse_in_loop ["zxping", "###"] none "###" (by decide)

/-- C2: on every successful probe, high latency increments the streak
without a cap and throttles exactly when the new streak is 3; normal
latency restores exactly when the streak is 3 and always resets it; the
two scenario runs give one throttle and one restore for three high
samples then a normal one, and one throttle and no restore for four
high samples then a normal one. -/
theorem C2_latency_machine :
    (∀ streak latMs, 50 < latMs →
      (latencyStep streak latMs).1 = streak + 1 ∧
      ((latencyStep streak latMs).2.1 = true ↔ streak + 1 = 3) ∧
      (latencyStep streak latMs).2.2 = false) ∧
    (∀ streak latMs, latMs ≤ 50 →
      (latencyStep streak latMs).1 = 0 ∧
      (latencyStep streak latMs).2.1 = false ∧
      ((latencyStep streak latMs).2.2 = true ↔ streak = 3)) ∧
    latencyRun 0 [60, 60, 60, 10] = (0, 1, 1) ∧
    latencyRun 0 [60, 60, 60, 60, 10] = (0, 1, 0) := by
  refine ⟨fun streak latMs h => ?_, fun streak latMs h => ?_,
    by decide, by decide⟩
  · simp [latencyStep, h]
  · simp [latencyStep, Nat.not_lt.mpr h]

/-- Witness for C2 at a concrete high-latency and a concrete
normal-latency sample. -/
theorem C2_latency_machine_witness :
    ((latencyStep 2 60).1 = 3 ∧
      ((latencyStep 2 60).2.1 = true ↔ 2 + 1 = 3) ∧
      (latencyStep 2 60).2.2 = false) ∧
    ((latencyStep 3 10).1 = 0 ∧
      (latencyStep 3 10).2.1 = false ∧
      ((latencyStep 3 10).2.2 = true ↔ 3 = 3)) :=
  ⟨C2_latency_machine.1 2 60 (by decide),
   C2_latency_machine.2.1 3 10 (by decide)⟩

/-- C3: any successful check resets the failure counter; a failed check
increments it and invokes reboot exactly when the incremented counter
has reached 10; ten straight failures reboot once and an eleventh
reboots again, the counter never being reset by the reboot attempt. -/
theorem C3_failure_counter :
    (∀ count, failureStep count true = (0, false)) ∧
    (∀ count, (failureStep count false).1 = count + 1 ∧
      ((failureStep count false).2 = true ↔ 10 ≤ count + 1)) ∧
    failureRun 0 (List.replicate 10 false) = (10, 1) ∧
    failureRun 0 (List.replicate 11 false) = (11, 2) := by
  refine ⟨fun count => rfl, fun count => ?_, by decide, by decide⟩
  simp [failureStep]

/-- C4: from the Normal state, the first above-threshold sample emits
the enter-elevated notification and does not throttle; two high samples
have thrown no throttle yet; the third one throttles; over the spec
scenario 90, 90, 90 the throttle fires exactly once; and once the streak
is at least 3 no further above-threshold sample throttles again. -/
theorem C4_load_escalation :
    loadStep (0, 0) 90 = ((1, 0), ⟨true, false, false, false, false, false⟩) ∧
    (loadRun (0, 0) [90, 90]).2.1 = 0 ∧
    (loadRun (0, 0) [90, 90, 90]).2.1 = 1 ∧
    (loadStep (2, 0) 90).2.throttle = true ∧
    (∀ st : Nat × Nat, ∀ usage : ℚ, 3 ≤ st.1 → 85 < usage →
      (loadStep st usage).2.throttle = false) := by
  refine ⟨by decide, by decide, by decide, by decide,
    fun st usage h3 hu => ?_⟩
  have h0 : ¬ st.1 = 0 := by omega
  have hne : ¬ st.1 + 1 = 3 := by omega
  have hne2 : ¬ st.1 = 2 := by omega
  simp [loadStep, hu, h0, hne, hne2]

/-- Witness for C4 at the concrete state (3, 0) and usage 90. -/
theorem C4_load_escalation_witness :
    (loadStep (3, 0) 90).2.throttle = false :=
  C4_load_escalation.2.2.2.2 (3, 0) 90 (by decide) (by decide)

/-- C5: after elevated mode has been entered, every at-or-under
threshold sample emits the exit notification and increments the
recovery streak; when the incremented streak reaches 3 the state fully
resets to (0, 0) and restore and clear-page-cache both fire; over the
spec scenario 10, 10, 10 from the elevated state each fires exactly
once. -/
theorem C5_load_recovery :
    (∀ st : Nat × Nat, ∀ usage : ℚ, 0 < st.1 → usage ≤ 85 → st.2 + 1 < 3 →
      loadStep st usage =
        ((st.1, st.2 + 1), ⟨false, false, true, false, false, false⟩)) ∧
    (∀ st : Nat × Nat, ∀ usage : ℚ, 0 < st.1 → usage ≤ 85 → 3 ≤ st.2 + 1 →
      loadStep st usage =
        ((0, 0), ⟨false, false, true, false, true, true⟩)) ∧
    loadRun (3, 0) [10, 10, 10] = ((0, 0), 0, 1, 1) := by
  refine ⟨fun st usage h1 hu hlt => ?_, fun st usage h1 hu hge => ?_,
    by decide⟩
  · have h0 : ¬ st.1 = 0 := by omega
    simp [loadStep, not_lt.mpr hu, h0, h1, Nat.not_le.mpr hlt]
  · have h0 : ¬ st.1 = 0 := by omega
    simp [loadStep, not_lt.mpr hu, h0, h1, hge]

/-- Witness for C5 at the concrete elevated states (3, 1) and (3, 2)
with usage 10. -/
theorem C5_load_recovery_witness :
    loadStep (3, 1) 10 =
      ((3, 2), ⟨false, false, true, false, false, false⟩) ∧
    loadStep (3, 2) 10 =
      ((0, 0), ⟨false, false, true, false, true, true⟩) :=
  ⟨C5_load_recovery.1 (3, 1) 10 (by decide) (by decide) (by decide),
   C5_load_recovery.2.1 (3, 2) 10 (by decide) (by decide) (by decide)⟩

/-- C6: for snapshots whose counter sums fit in 63 bits (no wrap of the
`u64` sums or `i64` casts), the computed usage is
100 * active delta / total delta when the total delta is positive, with
total the sum of all ten counters and active the total minus idle and
iowait, and 0 when the total delta is at most 0. -/
theorem C6_cpu_usage_formula (prev current : CpuStats)
    (hp : prev.sumAll < 2 ^ 63) (hc : current.sumAll < 2 ^ 63) :
    calculate_cpu_usage prev current =
      if 0 < mathTotal current - mathTotal prev then
        100 * ((mathActive current - mathActive prev : ℤ) : ℚ) /
          ((mathTotal current - mathTotal prev : ℤ) : ℚ)
      else 0 :=
  usage_eq_of_small prev current hp hc

/-- Witness for C6 at concrete snapshots with total delta 8 and active
delta 4. -/
theorem C6_cpu_usage_formula_witness :
    calculate_cpu_usage ⟨0, 0, 0, 0, 0, 0, 0, 0, 0, 0⟩
        ⟨4, 0, 0, 4, 0, 0, 0, 0, 0, 0⟩ =
      if 0 < mathTotal ⟨4, 0, 0, 4, 0, 0, 0, 0, 0, 0⟩ -
          mathTotal ⟨0, 0, 0, 0, 0, 0, 0, 0, 0, 0⟩ then
        100 * ((mathActive ⟨4, 0, 0, 4, 0, 0, 0, 0, 0, 0⟩ -
            mathActive ⟨0, 0, 0, 0, 0, 0, 0, 0, 0, 0⟩ : ℤ) : ℚ) /
          ((mathTotal ⟨4, 0, 0, 4, 0, 0, 0, 0, 0, 0⟩ -
            mathTotal ⟨0, 0, 0, 0, 0, 0, 0, 0, 0, 0⟩ : ℤ) : ℚ)
      else 0 :=
  C6_cpu_usage_formula ⟨0, 0, 0, 0, 0, 0, 0, 0, 0, 0⟩
    ⟨4, 0, 0, 4, 0, 0, 0, 0, 0, 0⟩ (by decide) (by decide)

/-- C7 is false on the code: with the user counter wrapped down from 10
to 5 while idle rose from 0 to 10, the total delta is positive (5) but
the active delta is negative, and the computed usage is -100, outside
the claimed range 0 to 100. -/
theorem C7_counterexample :
    calculate_cpu_usage ⟨10, 0, 0, 0, 0, 0, 0, 0, 0, 0⟩
        ⟨5, 0, 0, 10, 0, 0, 0, 0, 0, 0⟩ = -100 ∧
    ¬ (0 ≤ calculate_cpu_usage ⟨10, 0, 0, 0, 0, 0, 0, 0, 0, 0⟩
          ⟨5, 0, 0, 10, 0, 0, 0, 0, 0, 0⟩ ∧
        calculate_cpu_usage ⟨10, 0, 0, 0, 0, 0, 0, 0, 0, 0⟩
          ⟨5, 0, 0, 10, 0, 0, 0, 0, 0, 0⟩ ≤ 100) := by
  have h := usage_eq_of_small ⟨10, 0, 0, 0, 0, 0, 0, 0, 0, 0⟩
    ⟨5, 0, 0, 10, 0, 0, 0, 0, 0, 0⟩ (by decide) (by decide)
  refine ⟨?_, ?_⟩ <;> rw [h] <;>
    norm_num [mathTotal, mathActive, CpuStats.sumAll]

/-- C7 amended: the computed usage lies in the range 0 to 100 whenever
no counter wrapped, that is each of the ten counters is non-decreasing
between the two snapshots (and the sums fit in 63 bits); a zero or
negative total delta yields 0 by the code's guard, but an individual
counter wrap under a positive total delta can place the value outside
the range. -/
theorem C7_usage_bounds (prev current : CpuStats)
    (hp : prev.sumAll < 2 ^ 63) (hc : current.sumAll < 2 ^ 63)
    (hmono : prev.user ≤ current.user ∧ prev.nice ≤ current.nice ∧
      prev.system ≤ current.system ∧ prev.idle ≤ current.idle ∧
      prev.iowait ≤ current.iowait ∧ prev.irq ≤ current.irq ∧
      prev.softirq ≤ current.softirq ∧ prev.steal ≤ current.steal ∧
      prev.guest ≤ current.guest ∧
      prev.guest_nice ≤ current.guest_nice) :
    0 ≤ calculate_cpu_usage prev current ∧
      calculate_cpu_usage prev current ≤ 100 := by
  obtain ⟨h1, h2, h3, h4, h5, h6, h7, h8, h9, h10⟩ := hmono
  rw [usage_eq_of_small prev current hp hc]
  split_ifs with h
  · have haΔ : 0 ≤ mathActive current - mathActive prev := by
      unfold mathActive mathTotal CpuStats.sumAll
      omega
    have hat : mathActive current - mathActive prev ≤
        mathTotal current - mathTotal prev := by
      unfold mathActive mathTotal CpuStats.sumAll
      omega
    have htQ : (0 : ℚ) < ((mathTotal current - mathTotal prev : ℤ) : ℚ) := by
      exact_mod_cast h
    have haQ : (0 : ℚ) ≤ ((mathActive current - mathActive prev : ℤ) : ℚ) := by
      exact_mod_cast haΔ
    have hatQ : ((mathActive current - mathActive prev : ℤ) : ℚ) ≤
        ((mathTotal current - mathTotal prev : ℤ) : ℚ) := by
      exact_mod_cast hat
    constructor
    · positivity
    · rw [div_le_iff₀ htQ]
      linarith
  · constructor
    · norm_num
    · norm_num

/-- Witness for C7 amended at concrete monotone snapshots giving usage
50. -/
theorem C7_usage_bounds_witness :
    0 ≤ calculate_cpu_usage ⟨0, 0, 0, 0, 0, 0, 0, 0, 0, 0⟩
        ⟨4, 0, 0, 4, 0, 0, 0, 0, 0, 0⟩ ∧
      calculate_cpu_usage ⟨0, 0, 0, 0, 0, 0, 0, 0, 0, 0⟩
        ⟨4, 0, 0, 4, 0, 0, 0, 0, 0, 0⟩ ≤ 100 :=
  C7_usage_bounds ⟨0, 0, 0, 0, 0, 0, 0, 0, 0, 0⟩
    ⟨4, 0, 0, 4, 0, 0, 0, 0, 0, 0⟩ (by decide) (by decide)
    (by decide)

/-- C8: parsing the spec's ten-field line yields the snapshot 1..10; a
nine-field line yields guest_nice 0; a field that fails to parse is
read as 0 without failing the read; a cpu line with fewer than nine
numeric fields is not accepted (alone it leaves the error, and it is
skipped in favour of a later complete line); the first qualifying
whole-system line wins over per-core lines and any later cpu line. -/
theorem C8_proc_stat_parsing :
    get_cpu_stats "cpu 1 2 3 4 5 6 7 8 9 10" =
      .ok ⟨1, 2, 3, 4, 5, 6, 7, 8, 9, 10⟩ ∧
    get_cpu_stats "cpu 1 2 3 4 5 6 7 8 9" =
      .ok ⟨1, 2, 3, 4, 5, 6, 7, 8, 9, 0⟩ ∧
    get_cpu_stats "cpu 1 x 3 4 5 6 7 8 9 10" =
      .ok ⟨1, 0, 3, 4, 5, 6, 7, 8, 9, 10⟩ ∧
    get_cpu_stats "cpu 1 2 3" =
      .error "Cannot find CPU statistics in /proc/stat" ∧
    get_cpu_stats "cpu 1 2 3\ncpu 1 2 3 4 5 6 7 8 9 10" =
      .ok ⟨1, 2, 3, 4, 5, 6, 7, 8, 9, 10⟩ ∧
    get_cpu_stats
        "intr 5\ncpu  1 2 3 4 5 6 7 8 9 10\ncpu0 9 9 9 9 9 9 9 9 9 9\ncpu 11 12 13 14 15 16 17 18 19 20\n" =
      .ok ⟨1, 2, 3, 4, 5, 6, 7, 8, 9, 10⟩ :=
  ⟨rfl, rfl, rfl, rfl, rfl, rfl⟩

/-- C9: each of the four recognized control payloads is acknowledged
with the single 2-byte reply OK; RESTART_ADBD latches the pending
command so that the next tick invokes the restart-debug-bridge action
exactly once and resets the pending command to None (a further tick
does nothing); any other payload gets no reply and leaves the pending
command unchanged. -/
theorem C9_control_channel :
    (∀ pending, handleDatagram pending "RESTART_ADBD" =
      (ServerCmd.RestartADB, some "OK")) ∧
    (∀ pending, handleDatagram pending "KILL_ADBD" =
      (ServerCmd.KillADB, some "OK")) ∧
    (∀ pending, handleDatagram pending "RESTART_SERVER" =
      (ServerCmd.RestartSERVER, some "OK")) ∧
    (∀ pending, handleDatagram pending "PING" = (pending, some "OK")) ∧
    "OK".length = 2 ∧
    (∀ pending, dispatchTick (handleDatagram pending "RESTART_ADBD").1 =
      (ServerCmd.None, some HostAction.restartDebugBridge)) ∧
    dispatchTick ServerCmd.None = (ServerCmd.None, none) ∧
    (∀ pending payload, payload ≠ "RESTART_ADBD" → payload ≠ "KILL_ADBD" →
      payload ≠ "RESTART_SERVER" → payload ≠ "PING" →
      handleDatagram pending payload = (pending, none)) := by
  refine ⟨fun pending => rfl, fun pending => rfl, fun pending => rfl,
    fun pending => rfl, rfl, fun pending => rfl, rfl,
    fun pending payload h1 h2 h3 h4 => ?_⟩
  simp [handleDatagram, h1, h2, h3, h4]

/-- Witness for C9 at the concrete unrecognized payload FOO. -/
theorem C9_control_channel_witness :
    handleDatagram ServerCmd.None "FOO" = (ServerCmd.None, none) :=
  C9_control_channel.2.2.2.2.2.2.2 ServerCmd.None "FOO" (by decide)
    (by decide) (by decide) (by decide)

/-- C10: loading the cell after storing any command variant yields that
variant back, and loading a cell holding any byte other than 1, 2 or 3
yields the None command. -/
theorem C10_cmd_cell_roundtrip :
    (∀ c : ServerCmd, ServerCmd.load c.toByte = c) ∧
    (∀ b : Fin 256, b.val ≠ 1 → b.val ≠ 2 → b.val ≠ 3 →
      ServerCmd.load b.val = ServerCmd.None) := by
  constructor
  · intro c
    cases c <;> rfl
  · intro b h1 h2 h3
    unfold ServerCmd.load
    rw [if_neg h1, if_neg h2, if_neg h3]

/-- Witness for C10 at the concrete unknown byte 7. -/
theorem C10_cmd_cell_roundtrip_witness :
    ServerCmd.load 7 = ServerCmd.None :=
  C10_cmd_cell_roundtrip.2 ⟨7, by decide⟩ (by decide) (by decide)
    (by decide)

end Zxic
